import Mathlib

/-!
Shallow embedding of the hackathon-todo-app backend (FastAPI + SQLModel).

Embedded components:
* `backend/app/auth/jwt.py` — `verify_token`, `get_current_user` (the verifier
  actually imported by the task endpoints; coerces the identifier to `int`).
* `backend/app/auth/jwt_handler.py` — `verify_jwt_token` (distinguishes the
  expired case by message).
* `backend/app/auth/dependencies.py` — `get_current_user` (string identifier).
* `backend/app/schemas/task.py` — `TaskCreate` / `TaskUpdate` validation
  (pydantic v2: `Field` length constraints run on the raw value before the
  mode-"after" `field_validator`s).
* `backend/app/api/v1/tasks.py` — the five task endpoints over a task store,
  modelled as a list of rows; the per-request clock is an explicit parameter.

JSON payloads are association lists of `JValue`; Python truthiness and the
`payload.get(...) or payload.get(...)` chain are modelled explicitly.
-/

set_option maxRecDepth 8000

namespace TodoApp

/-- A JSON claim value as the Python code observes it: null, a string, or an
integer. (These are the only shapes the embedded code distinguishes.) -/
inductive JValue where
  | jnull : JValue
  | jstr : String → JValue
  | jint : Int → JValue
deriving DecidableEq, Repr

/-- A decoded token payload: an association list from claim names to values. -/
abbrev Payload := List (String × JValue)

/-- Python `payload.get(k)`: the value of the first binding of `k`, and `None`
when `k` is absent. A claim bound to JSON null and an absent claim are both
`None` to the Python code, so both map to `jnull`. -/
def pyGet (p : Payload) (k : String) : JValue :=
  match p.find? (fun kv => kv.1 == k) with
  | some kv => kv.2
  | none => JValue.jnull

/-- Raw lookup that still distinguishes an absent claim (`none`) from a claim
bound to null (`some jnull`). Used only to state spec-side properties. -/
def lookupRaw (p : Payload) (k : String) : Option JValue :=
  (p.find? (fun kv => kv.1 == k)).map (fun kv => kv.2)

/-- Python truthiness on the values we model: `None`, `""` and `0` are falsy. -/
def JValue.truthy : JValue → Bool
  | JValue.jnull => false
  | JValue.jstr s => !(s == "")
  | JValue.jint n => !(n == 0)

/-- Python `a or b`: returns `a` when `a` is truthy, else `b`. -/
def pyOr (a b : JValue) : JValue :=
  if a.truthy then a else b

/-- `payload.get("sub") or payload.get("user_id") or payload.get("id")` —
the identifier-extraction chain shared by `app/auth/jwt.py:90` and
`app/auth/dependencies.py:112`. -/
def extract_user_id (p : Payload) : JValue :=
  pyOr (pyGet p "sub") (pyOr (pyGet p "user_id") (pyGet p "id"))

/-- An HTTP error as raised via `HTTPException(status_code, detail)`. -/
structure HTTPError where
  status : Nat
  detail : String
deriving DecidableEq, Repr

/-- Abstraction of a bearer token as `jose.jwt.decode` sees it: the claims it
carries and whether its signature verifies against the shared secret.
Structurally malformed tokens are modelled as `sigValid = false`, since jose
surfaces both as the same `JWTError`; only expiry gets its own exception. -/
structure Token where
  payload : Payload
  sigValid : Bool

/-- Outcome of `jose.jwt.decode(token, secret, algorithms=[alg])`. -/
inductive DecodeResult where
  | ok : Payload → DecodeResult
  | expired : DecodeResult
  | malformed : DecodeResult
deriving DecidableEq

/-- The `exp` claim as an integer timestamp, when present with that shape. -/
def expClaim (p : Payload) : Option Int :=
  match pyGet p "exp" with
  | JValue.jint n => some n
  | _ => none

/-- `jose.jwt.decode`: signature failure or malformation raises `JWTError`
(`malformed`); an `exp` claim strictly in the past raises
`ExpiredSignatureError` (`expired`, a subclass of `JWTError`); otherwise the
payload is returned. `now` is the current Unix time. -/
def joseDecode (t : Token) (now : Int) : DecodeResult :=
  if t.sigValid then
    match expClaim t.payload with
    | some e => if e < now then DecodeResult.expired else DecodeResult.ok t.payload
    | none => DecodeResult.ok t.payload
  else DecodeResult.malformed

/-- `app/auth/jwt.py:verify_token`: a single `except JWTError` catches the
expired case together with every other decode failure, so every failure maps
to the one generic 401 message. -/
def verify_token (t : Token) (now : Int) : Except HTTPError Payload :=
  match joseDecode t now with
  | DecodeResult.ok p => Except.ok p
  | DecodeResult.expired => Except.error ⟨401, "Invalid authentication credentials"⟩
  | DecodeResult.malformed => Except.error ⟨401, "Invalid authentication credentials"⟩

/-- `app/auth/jwt_handler.py:verify_jwt_token`: `ExpiredSignatureError` is
caught before the generic `JWTError` arm, so expiry gets its own message.
The redundant in-`try` expiry re-check would raise an `HTTPException` that the
trailing `except Exception` arm swallows into "Could not validate credentials";
it is unreachable because jose already rejected every `exp < now` token. -/
def verify_jwt_token (t : Token) (now : Int) : Except HTTPError Payload :=
  match joseDecode t now with
  | DecodeResult.ok p =>
      match expClaim p with
      | some e =>
          if e ≠ 0 ∧ e < now then Except.error ⟨401, "Could not validate credentials"⟩
          else Except.ok p
      | none => Except.ok p
  | DecodeResult.expired => Except.error ⟨401, "Token expired"⟩
  | DecodeResult.malformed => Except.error ⟨401, "Invalid authentication token"⟩

/-- Python `str.strip()`: remove leading and trailing whitespace. Defined
structurally over the character list so that it evaluates inside the kernel;
`pyStrip_eq_trim` below proves it agrees with `String.trim`. -/
def pyStrip (s : String) : String :=
  ⟨((s.data.dropWhile Char.isWhitespace).reverse.dropWhile Char.isWhitespace).reverse⟩

/-- Digits of a decimal literal, as Python `int` accepts after the sign. -/
def decDigitsVal : List Char → Option Nat
  | [] => none
  | cs =>
    if cs.all Char.isDigit then
      some (cs.foldl (fun acc c => acc * 10 + (c.toNat - '0'.toNat)) 0)
    else none

/-- Python `int(s)` on a string: strip whitespace, optional sign, then a
non-empty run of decimal digits; anything else raises `ValueError`.
(Underscore digit grouping is not modelled; no claim depends on it.) -/
def pyIntOfString (s : String) : Option Int :=
  match (pyStrip s).data with
  | [] => none
  | c :: cs =>
    if c = '-' then (decDigitsVal cs).map (fun n => -(n : Int))
    else if c = '+' then (decDigitsVal cs).map (fun n => (n : Int))
    else (decDigitsVal (c :: cs)).map (fun n => (n : Int))

/-- Python `int(v)` on a claim value: ints pass through, strings are parsed,
`None` raises `TypeError`; both exceptions are caught by the caller. -/
def pyInt : JValue → Option Int
  | JValue.jint n => some n
  | JValue.jstr s => pyIntOfString s
  | JValue.jnull => none

/-- The optional `email` claim as the `User` constructors receive it. -/
def emailOf (p : Payload) : Option String :=
  match pyGet p "email" with
  | JValue.jstr s => some s
  | _ => none

/-- `app/auth/jwt.py:User` — note the identifier field is an `int`. -/
structure UserJwt where
  id : Int
  email : Option String
deriving DecidableEq, Repr

/-- `app/auth/models.py:User` — the identifier field is a string. -/
structure UserDep where
  user_id : String
  email : Option String
deriving DecidableEq, Repr

/-- `app/auth/jwt.py:get_current_user` — the dependency that the task
endpoints use (`app/api/v1/tasks.py:10`). After extraction it coerces the
identifier with `int(user_id)` and rejects values that do not parse. -/
def get_current_user_jwt (t : Token) (now : Int) : Except HTTPError UserJwt :=
  match verify_token t now with
  | Except.error e => Except.error e
  | Except.ok payload =>
    let uid := extract_user_id payload
    if uid = JValue.jnull then
      Except.error ⟨401, "Invalid token: user_id not found"⟩
    else
      match pyInt uid with
      | some n => Except.ok ⟨n, emailOf payload⟩
      | none => Except.error ⟨401, "Invalid token: user_id must be an integer"⟩

/-- Python `str(v)` on a non-null claim value. -/
def pyStr : JValue → String
  | JValue.jnull => "None"
  | JValue.jstr s => s
  | JValue.jint n => toString n

/-- `app/auth/dependencies.py:get_current_user` — the string-identifier
variant exported by `app.auth.__init__` but bypassed by the task router. -/
def get_current_user_dep (t : Token) (now : Int) : Except HTTPError UserDep :=
  match verify_jwt_token t now with
  | Except.error e => Except.error e
  | Except.ok payload =>
    let uid := extract_user_id payload
    if uid = JValue.jnull then
      Except.error ⟨401, "Invalid token: user identifier not found"⟩
    else
      Except.ok ⟨pyStr uid, emailOf payload⟩

/-- `app/models/task.py:Task` — a row of the `tasks` table. Timestamps are
Unix times (`Int`); the owner identifier column is TEXT, hence `String`. -/
structure Task where
  id : Nat
  user_id : String
  title : String
  description : Option String
  completed : Bool
  created_at : Int
  updated_at : Int
deriving DecidableEq, Repr

/-- `Task.mark_updated`: sets `updated_at` to the current time. -/
def Task.mark_updated (t : Task) (now : Int) : Task :=
  { t with updated_at := now }

/-- The task store: the rows of the `tasks` table, in insertion order. -/
abbrev Store := List Task

/-- The ownership-scoped row predicate
`Task.id == task_id, Task.user_id == current_user.id` of the endpoints'
`select` statements. -/
def ownedRow (task_id : Nat) (uid : String) (t : Task) : Bool :=
  t.id == task_id && t.user_id == uid

/-- `session.exec(select(Task).where(id == task_id, user_id == uid)).first()`:
the single ownership-scoped lookup shared by toggle, update and delete. -/
def findTask (store : Store) (task_id : Nat) (uid : String) : Option Task :=
  store.find? (ownedRow task_id uid)

/-- Committing a mutation of the fetched row: the first row satisfying the
lookup predicate is replaced by its updated value. -/
def replaceFirst (p : Task → Bool) (t' : Task) : Store → Store
  | [] => []
  | t :: ts => if p t then t' :: ts else t :: replaceFirst p t' ts

/-- `session.delete` of the fetched row: the first row satisfying the lookup
predicate is removed. -/
def eraseFirst (p : Task → Bool) : Store → Store
  | [] => []
  | t :: ts => if p t then ts else t :: eraseFirst p ts

/-- Output of a successfully validated `TaskCreate` schema instance. -/
structure TaskCreateData where
  title : String
  description : Option String
deriving DecidableEq, Repr

/-- Output of a successfully validated `TaskUpdate` schema instance. -/
structure TaskUpdateData where
  title : Option String
  description : Option String
deriving DecidableEq, Repr

/-- `TaskCreate.title` validation. pydantic first enforces
`Field(min_length=1, max_length=500)` on the raw value, then runs the
mode-"after" validator, which strips and re-checks. -/
def validate_title_create (raw : String) : Except String String :=
  if raw.length < 1 then Except.error "String should have at least 1 character"
  else if raw.length > 500 then Except.error "String should have at most 500 characters"
  else
    let v := pyStrip raw
    if v = "" then Except.error "Title cannot be empty or whitespace-only"
    else if v.length > 500 then Except.error "Title cannot exceed 500 characters"
    else Except.ok v

/-- `TaskCreate.description` / `TaskUpdate.description` validation:
`Field(max_length=5000)` on the raw value, then the validator strips and
normalizes an empty result to `None`. -/
def validate_description (v? : Option String) : Except String (Option String) :=
  match v? with
  | none => Except.ok none
  | some raw =>
    if raw.length > 5000 then Except.error "String should have at most 5000 characters"
    else
      let v := pyStrip raw
      if v.length > 5000 then Except.error "Description cannot exceed 5000 characters"
      else Except.ok (if v = "" then none else some v)

/-- `TaskUpdate.title` validation: same as `TaskCreate.title` but only when a
value is provided. -/
def validate_title_update (v? : Option String) : Except String (Option String) :=
  match v? with
  | none => Except.ok none
  | some raw => (validate_title_create raw).map some

/-- Validation of a whole `TaskCreate` request body. -/
def taskCreate_validate (title : String) (desc? : Option String) :
    Except String TaskCreateData :=
  match validate_title_create title, validate_description desc? with
  | Except.ok t, Except.ok d => Except.ok ⟨t, d⟩
  | Except.error e, _ => Except.error e
  | _, Except.error e => Except.error e

/-- Validation of a whole `TaskUpdate` request body. -/
def taskUpdate_validate (title? desc? : Option String) :
    Except String TaskUpdateData :=
  match validate_title_update title?, validate_description desc? with
  | Except.ok t, Except.ok d => Except.ok ⟨t, d⟩
  | Except.error e, _ => Except.error e
  | _, Except.error e => Except.error e

/-- `POST /tasks` (`create_task`): builds the row with `completed=False` and
two consecutive `datetime.now` reads (`now_c` for `created_at`, `now_u` for
`updated_at`), and appends it to the store. `newId` is the id the database
assigns. -/
def create_task (store : Store) (uid : String) (data : TaskCreateData)
    (newId : Nat) (now_c now_u : Int) : Task × Store :=
  let task : Task :=
    { id := newId, user_id := uid, title := data.title,
      description := data.description, completed := false,
      created_at := now_c, updated_at := now_u }
  (task, store ++ [task])

/-- `GET /tasks` (`list_tasks`): rows filtered to the caller's `user_id`,
ordered by `created_at` descending. -/
def list_tasks (store : Store) (uid : String) : List Task :=
  (store.filter (fun t => t.user_id == uid)).mergeSort
    (fun a b => decide (b.created_at ≤ a.created_at))

/-- The row mutation of `PATCH /tasks/{id}/complete`: flip `completed`, then
`mark_updated`. -/
def applyToggle (task : Task) (now : Int) : Task :=
  Task.mark_updated { task with completed := !task.completed } now

/-- `PATCH /tasks/{id}/complete` (`toggle_task_completion`): ownership-scoped
lookup, 404 on absence, otherwise toggle and commit. The store is returned on
every path (unchanged when the handler raises before mutating). -/
def toggle_task_completion (store : Store) (task_id : Nat) (uid : String)
    (now : Int) : Except HTTPError Task × Store :=
  match findTask store task_id uid with
  | none => (Except.error ⟨404, "Task not found"⟩, store)
  | some task =>
    let task' := applyToggle task now
    (Except.ok task', replaceFirst (ownedRow task_id uid) task' store)

/-- The row mutation of `PUT /tasks/{id}`: copy over exactly the fields the
validated body provides, then `mark_updated`. -/
def applyUpdate (task : Task) (data : TaskUpdateData) (now : Int) : Task :=
  let t1 := match data.title with
    | some ti => { task with title := ti }
    | none => task
  let t2 := match data.description with
    | some d => { t1 with description := some d }
    | none => t1
  Task.mark_updated t2 now

/-- `PUT /tasks/{id}` (`update_task`): ownership-scoped lookup, 404 on
absence, otherwise field-wise update and commit. -/
def update_task (store : Store) (task_id : Nat) (uid : String)
    (data : TaskUpdateData) (now : Int) : Except HTTPError Task × Store :=
  match findTask store task_id uid with
  | none => (Except.error ⟨404, "Task not found"⟩, store)
  | some task =>
    let task' := applyUpdate task data now
    (Except.ok task', replaceFirst (ownedRow task_id uid) task' store)

/-- The body `delete_task` returns on success. -/
structure DeleteResponse where
  success : Bool
  message : String
deriving DecidableEq, Repr

/-- `DELETE /tasks/{id}` (`delete_task`): ownership-scoped lookup, 404 on
absence, otherwise the row is removed. -/
def delete_task (store : Store) (task_id : Nat) (uid : String) :
    Except HTTPError DeleteResponse × Store :=
  match findTask store task_id uid with
  | none => (Except.error ⟨404, "Task not found"⟩, store)
  | some _ =>
    (Except.ok ⟨true, "Task deleted successfully"⟩,
     eraseFirst (ownedRow task_id uid) store)

/-- The identifier-extraction rule as the spec words it: consult `sub`, then
`user_id`, then `id`, and the first claim that is *present with a non-null
value* wins; `none` when no claim qualifies. Stated over the raw payload so
that a present-but-falsy value (e.g. the empty string) qualifies. This is the
spec-side rule, to be compared against `extract_user_id` from the code. -/
def firstNonNullClaim (p : Payload) : List String → Option JValue
  | [] => none
  | k :: ks =>
    match lookupRaw p k with
    | some v => if v = JValue.jnull then firstNonNullClaim p ks else some v
    | none => firstNonNullClaim p ks

/-- Spec-side extraction: first of `sub`, `user_id`, `id` present non-null. -/
def extract_user_id_claimed (p : Payload) : Option JValue :=
  firstNonNullClaim p ["sub", "user_id", "id"]

/-- Whether `pre` occurs at the head of `l`. -/
def charsStartWith : List Char → List Char → Bool
  | [], _ => true
  | _ :: _, [] => false
  | a :: as, b :: bs => a == b && charsStartWith as bs

/-- Whether `sub` occurs contiguously somewhere in `l`. -/
def charsContain (sub : List Char) : List Char → Bool
  | [] => sub.isEmpty
  | c :: cs => charsStartWith sub (c :: cs) || charsContain sub cs

/-- Whether the string `sub` occurs as a substring of `s` (Python `in`). -/
def strContains (s sub : String) : Bool :=
  charsContain sub.data s.data

/-- The data-model invariant of the spec: every stored task satisfies
`updated_at >= created_at`. -/
def storeInv (store : Store) : Prop :=
  ∀ t ∈ store, t.created_at ≤ t.updated_at

/-- A valid, unexpired token (relative to time 1000) whose subject is the
non-numeric identifier the repository's own test helper uses. -/
def uuidToken : Token :=
  { payload := [("sub", JValue.jstr "test-user-123"),
                ("email", JValue.jstr "test@example.com"),
                ("exp", JValue.jint 7200), ("iat", JValue.jint 0)],
    sigValid := true }

/-- A correctly signed token whose `exp` claim is one hour in the past
relative to time 0. -/
def expiredTok : Token :=
  { payload := [("sub", JValue.jstr "test-user-123"),
                ("email", JValue.jstr "test@example.com"),
                ("exp", JValue.jint (-3600)), ("iat", JValue.jint (-7200))],
    sigValid := true }

/-- A well-formed, unexpired token whose signature does not verify. -/
def badSigTok : Token :=
  { payload := [("sub", JValue.jstr "test-user-123"),
                ("exp", JValue.jint 3600)],
    sigValid := false }

/-- A sample task owned by user "alice". -/
def taskAlice : Task :=
  { id := 1, user_id := "alice", title := "A", description := some "x",
    completed := false, created_at := 10, updated_at := 10 }

/-- A raw title of 501 characters whose stripped form has exactly 500. -/
def longRawTitle : String :=
  String.mk (List.replicate 500 'a' ++ [' '])

/-! ### Helper lemmas: `pyStrip` agrees with `String.trim` -/

open String in
theorem takeRightWhileAux_of_valid (p : Char → Bool) (l m r : List Char) :
    Substring.takeRightWhileAux ⟨l ++ m ++ r⟩ ⟨utf8Len l⟩ p ⟨utf8Len l + utf8Len m⟩ =
      ⟨utf8Len l + utf8Len (m.reverse.dropWhile p)⟩ := by
  induction m using List.reverseRecOn generalizing r with
  | nil =>
    unfold Substring.takeRightWhileAux
    simp
  | append_singleton m' c ih =>
    unfold Substring.takeRightWhileAux
    rw [dif_pos (by simp [Char.utf8Size_pos, Nat.lt_add_of_pos_right])]
    have hprev : ({ data := l ++ m' ++ c :: r } : String).prev
        ⟨utf8Len l + utf8Len (m' ++ [c])⟩ = ⟨utf8Len l + utf8Len m'⟩ := by
      have h := prev_of_valid (l ++ m') c r
      simp only [List.append_assoc] at h
      simpa [Nat.add_assoc] using h
    have hget : ({ data := l ++ m' ++ c :: r } : String).get ⟨utf8Len l + utf8Len m'⟩ = c := by
      have h := get_of_valid (l ++ m') (c :: r)
      simpa using h
    simp only [List.append_assoc, List.singleton_append] at *
    simp only [hprev, hget]
    cases hp : p c with
    | false =>
      simp [hp, Nat.add_assoc]
    | true =>
      simpa [hp] using ih (c :: r)

open String in
theorem trim_mk (l : List Char) :
    String.trim ⟨l⟩ =
      ⟨((l.dropWhile Char.isWhitespace).reverse.dropWhile Char.isWhitespace).reverse⟩ := by
  unfold String.trim String.toSubstring Substring.trim Substring.toString
  have hb : Substring.takeWhileAux ⟨l⟩ (String.endPos ⟨l⟩) Char.isWhitespace ⟨0⟩ =
      ⟨utf8Len (l.takeWhile Char.isWhitespace)⟩ := by
    have h := takeWhileAux_of_valid Char.isWhitespace [] l []
    simpa using h
  set t := l.takeWhile Char.isWhitespace with ht
  set d := l.dropWhile Char.isWhitespace with hd
  have hld : t ++ d = l := List.takeWhile_append_dropWhile Char.isWhitespace l
  have he : Substring.takeRightWhileAux ⟨l⟩ ⟨utf8Len t⟩ Char.isWhitespace (String.endPos ⟨l⟩) =
      ⟨utf8Len t + utf8Len (d.reverse.dropWhile Char.isWhitespace)⟩ := by
    have h := takeRightWhileAux_of_valid Char.isWhitespace t d []
    rw [List.append_nil, hld] at h
    have hend : String.endPos ⟨l⟩ = ⟨utf8Len t + utf8Len d⟩ := by
      rw [← hld]; simp
    rw [hend]
    exact h
  dsimp only
  rw [hb, he]
  have hsplit : l = t ++ ((d.reverse.dropWhile Char.isWhitespace).reverse ++
      (d.reverse.takeWhile Char.isWhitespace).reverse) := by
    conv_lhs => rw [← hld]
    congr 1
    rw [← List.reverse_append, List.takeWhile_append_dropWhile, List.reverse_reverse]
  have h := String.extract_of_valid t ((d.reverse.dropWhile Char.isWhitespace).reverse)
      ((d.reverse.takeWhile Char.isWhitespace).reverse)
  rw [List.append_assoc, ← hsplit] at h
  simpa using h

/-- The structural strip used by the embedding is exactly `String.trim`. -/
theorem pyStrip_eq_trim (s : String) : pyStrip s = s.trim := by
  cases s with
  | mk l => rw [trim_mk]; rfl

theorem length_pyStrip_le (s : String) : (pyStrip s).length ≤ s.length := by
  cases s with
  | mk l =>
    simp only [pyStrip, String.mk_length, List.length_reverse]
    exact Nat.le_trans ((List.dropWhile_sublist _).length_le)
      (Nat.le_trans (Nat.le_of_eq (List.length_reverse _)) ((List.dropWhile_sublist _).length_le))

/-! ### Claim C1 -/

/-- C1: the claim states that the verifier used by the task endpoints accepts
a non-numeric subject identifier (e.g. a UUID-like string) as an opaque string
and passes it through unchanged. The code violates this: the task router
uses `get_current_user` from `app/auth/jwt.py`, which coerces the
identifier with `int(...)`; on a valid, unexpired token whose subject is
"test-user-123" (the repository's own test fixture) it returns
401 "Invalid token: user_id must be an integer" instead of succeeding.
The bypassed `app/auth/dependencies.py` variant accepts the same token and
passes the identifier through unchanged, as the spec describes. -/
theorem c1_task_endpoint_verifier_rejects_opaque_subject :
    get_current_user_jwt uuidToken 1000 =
      Except.error ⟨401, "Invalid token: user_id must be an integer"⟩ ∧
    get_current_user_dep uuidToken 1000 =
      Except.ok ⟨"test-user-123", some "test@example.com"⟩ := by
  constructor <;> rfl

/-! ### Claim C2 -/

/-- C2: the claim states that on the protected task routes an expired token
yields a 401 whose message contains "expired", while a wrong-signature token
yields a generic 401. The code violates the first half: the task routes
authenticate via `app/auth/jwt.py:verify_token`, whose single
`except JWTError` arm maps the expired case to the same generic
"Invalid authentication credentials" — a message that does not contain
"expired" — contradicting the repository's own test
(`tests/test_auth_errors.py:test_expired_token`). The intended behaviour is
implemented in the bypassed `app/auth/jwt_handler.py:verify_jwt_token`, which
does return "Token expired" for the expired token and the generic message for
the wrong-signature token. -/
theorem c2_expired_token_not_distinguished_on_task_routes :
    verify_token expiredTok 0 =
      Except.error ⟨401, "Invalid authentication credentials"⟩ ∧
    get_current_user_jwt expiredTok 0 =
      Except.error ⟨401, "Invalid authentication credentials"⟩ ∧
    strContains "Invalid authentication credentials" "expired" = false ∧
    verify_jwt_token expiredTok 0 = Except.error ⟨401, "Token expired"⟩ ∧
    strContains "Token expired" "expired" = true ∧
    verify_token badSigTok 0 =
      Except.error ⟨401, "Invalid authentication credentials"⟩ ∧
    verify_jwt_token badSigTok 0 =
      Except.error ⟨401, "Invalid authentication token"⟩ := by
  refine ⟨rfl, rfl, by decide, rfl, by decide, rfl, rfl⟩

/-! ### Claim C3 -/

/-- C3: for every caller identity and task id such that no stored task has
both that id and that owner — whether the id matches nothing at all or
matches a task of a different user — ToggleCompletion, Update and Delete all
fail with the identical 404 "Task not found" (the ownership condition being
part of the single lookup predicate `ownedRow`), and the store is unchanged. -/
theorem c3_not_found_uniform_and_store_unchanged (store : Store) (task_id : Nat)
    (uid : String) (data : TaskUpdateData) (now : Int)
    (h : ∀ t ∈ store, ¬(t.id = task_id ∧ t.user_id = uid)) :
    toggle_task_completion store task_id uid now =
      (Except.error ⟨404, "Task not found"⟩, store) ∧
    update_task store task_id uid data now =
      (Except.error ⟨404, "Task not found"⟩, store) ∧
    delete_task store task_id uid =
      (Except.error ⟨404, "Task not found"⟩, store) := by
  have hf : findTask store task_id uid = none := by
    rw [findTask, List.find?_eq_none]
    intro t ht hp
    exact h t ht (by simpa [ownedRow] using hp)
  refine ⟨?_, ?_, ?_⟩ <;>
    simp [toggle_task_completion, update_task, delete_task, hf]

/-- Witness for C3 at a concrete store: user "bob" probing task 1, which
exists but belongs to "alice", gets the same 404 as for any missing id. -/
theorem c3_not_found_uniform_and_store_unchanged_witness :
    toggle_task_completion [taskAlice] 1 "bob" 99 =
      (Except.error ⟨404, "Task not found"⟩, [taskAlice]) ∧
    update_task [taskAlice] 1 "bob" ⟨none, none⟩ 99 =
      (Except.error ⟨404, "Task not found"⟩, [taskAlice]) ∧
    delete_task [taskAlice] 1 "bob" =
      (Except.error ⟨404, "Task not found"⟩, [taskAlice]) :=
  c3_not_found_uniform_and_store_unchanged [taskAlice] 1 "bob" ⟨none, none⟩ 99
    (by decide)

/-! ### Claim C4 -/

/-- C4: List returns exactly the caller's tasks (a permutation of the store
filtered to the caller's owner id, so nothing of any other user's), ordered
by `created_at` descending; the empty result is a valid outcome. -/
theorem c4_list_returns_exactly_callers_tasks_sorted (store : Store)
    (uidA uidB : String) (t : Task) (hne : uidA ≠ uidB) :
    (∀ u ∈ list_tasks store uidB, u.user_id = uidB) ∧
    (list_tasks store uidB).Perm (store.filter (fun u => u.user_id == uidB)) ∧
    (list_tasks store uidB).Pairwise (fun a b => b.created_at ≤ a.created_at) ∧
    (t.user_id = uidA → t ∉ list_tasks store uidB) ∧
    list_tasks ([] : Store) uidB = [] := by
  have hperm : (list_tasks store uidB).Perm
      (store.filter (fun u => u.user_id == uidB)) :=
    List.mergeSort_perm _ _
  have hmem : ∀ u ∈ list_tasks store uidB, u.user_id = uidB := by
    intro u hu
    have h := List.mem_filter.mp (hperm.mem_iff.mp hu)
    simpa using h.2
  refine ⟨hmem, hperm, ?_, ?_, ?_⟩
  · have hs : (List.mergeSort (store.filter (fun u => u.user_id == uidB))
        (fun a b => decide (b.created_at ≤ a.created_at))).Pairwise
        (fun a b => decide (b.created_at ≤ a.created_at)) :=
      List.sorted_mergeSort
        (fun a b c hab hbc => by
          simp only [decide_eq_true_eq] at *
          exact le_trans hbc hab)
        (fun a b => by simpa using Int.le_total b.created_at a.created_at) _
    exact hs.imp (fun h => of_decide_eq_true h)
  · intro hA hmemB
    exact hne (hA ▸ (hmem t hmemB).symm ▸ rfl)
  · simp [list_tasks]

/-- Witness for C4: a task of user "alice" is never in user "bob"'s list. -/
theorem c4_list_returns_exactly_callers_tasks_sorted_witness :
    taskAlice ∉ list_tasks [taskAlice] "bob" :=
  (c4_list_returns_exactly_callers_tasks_sorted [taskAlice] "alice" "bob" taskAlice
    (by decide)).2.2.2.1 rfl

/-! ### Claim C5 -/

/-- A successful `verify_jwt_token` always returns the token's own payload. -/
theorem verify_jwt_token_ok_payload (t : Token) (now : Int) (p : Payload)
    (h : verify_jwt_token t now = Except.ok p) : p = t.payload := by
  unfold verify_jwt_token joseDecode at h
  by_cases hs : t.sigValid
  · simp only [hs, if_true] at h
    cases hexp : expClaim t.payload with
    | none => simp only [hexp] at h; exact (Except.ok.inj h).symm
    | some e =>
      simp only [hexp] at h
      by_cases hl : e < now
      · simp [hl] at h
      · simp only [hl, if_false] at h
        simp only [hexp] at h
        rw [if_neg (by simp [hl])] at h
        exact (Except.ok.inj h).symm
  · simp [hs] at h

/-- C5 counterexample: with payload `{sub: "", user_id: "alice"}` the `sub`
claim is present with the non-null value `""`, so under the claim the
extracted identifier would be `""`; the code's `or`-chain skips the falsy
empty string and extracts `"alice"`, which a valid token then turns into the
authenticated user. -/
theorem c5_counterexample_falsy_sub_skipped :
    extract_user_id_claimed [("sub", JValue.jstr ""), ("user_id", JValue.jstr "alice")] =
      some (JValue.jstr "") ∧
    extract_user_id [("sub", JValue.jstr ""), ("user_id", JValue.jstr "alice")] =
      JValue.jstr "alice" ∧
    get_current_user_dep
      ⟨[("sub", JValue.jstr ""), ("user_id", JValue.jstr "alice")], true⟩ 0 =
      Except.ok ⟨"alice", none⟩ := by
  refine ⟨rfl, rfl, rfl⟩

/-- C5 amended: the extraction consults `sub`, then `user_id`, then `id`, and
the first claim whose value is truthy in Python's sense (non-null, non-empty,
non-zero) wins; a present non-null but falsy value in an earlier claim is
skipped in favour of a later claim; if none of the three is present with a
non-null value, verification fails with a 401 (in both verifier variants). -/
theorem c5_extraction_first_truthy_claim_wins (p : Payload) (t : Token)
    (now : Int) (q : Payload) :
    ((pyGet p "sub").truthy = true → extract_user_id p = pyGet p "sub") ∧
    ((pyGet p "sub").truthy = false → (pyGet p "user_id").truthy = true →
      extract_user_id p = pyGet p "user_id") ∧
    ((pyGet p "sub").truthy = false → (pyGet p "user_id").truthy = false →
      extract_user_id p = pyGet p "id") ∧
    (pyGet t.payload "sub" = JValue.jnull →
     pyGet t.payload "user_id" = JValue.jnull →
     pyGet t.payload "id" = JValue.jnull →
     verify_jwt_token t now = Except.ok q →
     get_current_user_dep t now =
       Except.error ⟨401, "Invalid token: user identifier not found"⟩) := by
  refine ⟨?_, ?_, ?_, ?_⟩
  · intro h1
    simp [extract_user_id, pyOr, h1]
  · intro h1 h2
    simp [extract_user_id, pyOr, h1, h2]
  · intro h1 h2
    simp [extract_user_id, pyOr, h1, h2]
  · intro h1 h2 h3 hok
    have hq := verify_jwt_token_ok_payload t now q hok
    subst hq
    unfold get_current_user_dep
    rw [hok]
    simp [extract_user_id, pyOr, h1, h2, h3, JValue.truthy]

/-- Witness for C5's amended theorem: a token with no identifier claim at all
is rejected with the missing-identifier 401, and on a payload with a truthy
`sub` the extraction returns that `sub` value. -/
theorem c5_extraction_first_truthy_claim_wins_witness :
    extract_user_id [("sub", JValue.jstr "alice")] = pyGet [("sub", JValue.jstr "alice")] "sub" ∧
    get_current_user_dep ⟨[("email", JValue.jstr "a@b.c")], true⟩ 0 =
      Except.error ⟨401, "Invalid token: user identifier not found"⟩ :=
  ⟨(c5_extraction_first_truthy_claim_wins [("sub", JValue.jstr "alice")]
      ⟨[("email", JValue.jstr "a@b.c")], true⟩ 0 [("email", JValue.jstr "a@b.c")]).1
      (by decide),
   (c5_extraction_first_truthy_claim_wins [("sub", JValue.jstr "alice")]
      ⟨[("email", JValue.jstr "a@b.c")], true⟩ 0 [("email", JValue.jstr "a@b.c")]).2.2.2
      rfl rfl rfl rfl⟩

/-! ### Claim C6 -/

/-- C6 counterexample: a raw title of 501 characters (500 letters and one
trailing space) has a trimmed length of exactly 500 and is non-empty after
trimming, so under the claim it would be accepted; the code rejects it,
because pydantic's `Field(max_length=500)` constraint runs on the raw value
before the trimming validator. -/
theorem c6_counterexample_trimmed_500_still_rejected :
    (pyStrip longRawTitle).length = 500 ∧
    pyStrip longRawTitle ≠ "" ∧
    longRawTitle.length = 501 ∧
    validate_title_create longRawTitle =
      Except.error "String should have at most 500 characters" := by
  refine ⟨by decide, by decide, by decide, rfl⟩

/-- C6 amended: the title is validated against the 1..500 length bounds on
its raw (untrimmed) form first; within those bounds it is stripped,
whitespace-only titles are rejected, and an accepted title is stored in
stripped form (`Create("  Buy milk  ")` stores `"Buy milk"`); a title whose
trimmed length is at most 500 is accepted only when its raw length is also at
most 500, and a raw title longer than 500 characters is rejected even when
trimming would bring it within the limit. -/
theorem c6_title_stripped_and_validated (raw : String)
    (h1 : 1 ≤ raw.length) (h2 : raw.length ≤ 500) (h3 : pyStrip raw ≠ "") :
    validate_title_create raw = Except.ok (pyStrip raw) ∧
    (∀ s : String, pyStrip s = "" → 1 ≤ s.length → s.length ≤ 500 →
      validate_title_create s =
        Except.error "Title cannot be empty or whitespace-only") ∧
    (∀ s : String, 500 < s.length →
      validate_title_create s =
        Except.error "String should have at most 500 characters") ∧
    validate_title_create "  Buy milk  " = Except.ok "Buy milk" := by
  refine ⟨?_, ?_, ?_, rfl⟩
  · unfold validate_title_create
    rw [if_neg (by omega), if_neg (by omega)]
    dsimp only
    rw [if_neg h3, if_neg (by
      have := length_pyStrip_le raw
      omega)]
  · intro s hs hs1 hs500
    unfold validate_title_create
    rw [if_neg (by omega), if_neg (by omega)]
    dsimp only
    rw [if_pos hs]
  · intro s hs
    unfold validate_title_create
    rw [if_neg (by omega), if_pos (by omega)]

/-- Witness for C6: the spec's own example request, applied through the
amended theorem. -/
theorem c6_title_stripped_and_validated_witness :
    validate_title_create "  Buy milk  " = Except.ok (pyStrip "  Buy milk  ") :=
  (c6_title_stripped_and_validated "  Buy milk  "
    (by decide) (by decide) (by decide)).1

/-! ### Shared lemmas about the store operations -/

/-- A successful ownership-scoped lookup finds a row satisfying the
predicate. -/
theorem ownedRow_of_findTask {store : Store} {tid : Nat} {uid : String}
    {task : Task} (h : findTask store tid uid = some task) :
    ownedRow tid uid task = true :=
  List.find?_some h

/-- After committing a row that still satisfies the lookup predicate, the
same lookup finds exactly that row. -/
theorem findTask_replaceFirst_self (store : Store) (tid : Nat) (uid : String)
    (task t' : Task) (h : findTask store tid uid = some task)
    (h' : ownedRow tid uid t' = true) :
    findTask (replaceFirst (ownedRow tid uid) t' store) tid uid = some t' := by
  induction store with
  | nil => simp [findTask] at h
  | cons a as ih =>
    by_cases ha : ownedRow tid uid a
    · unfold replaceFirst
      rw [if_pos ha]
      unfold findTask
      rw [List.find?_cons_of_pos _ h']
    · unfold replaceFirst
      rw [if_neg ha]
      unfold findTask at h ⊢
      rw [List.find?_cons_of_neg _ ha] at h ⊢
      exact ih h

/-- Membership after an in-place row replacement. -/
theorem mem_replaceFirst {p : Task → Bool} {t' x : Task} {l : Store}
    (hx : x ∈ replaceFirst p t' l) : x = t' ∨ x ∈ l := by
  induction l with
  | nil => simp [replaceFirst] at hx
  | cons a as ih =>
    unfold replaceFirst at hx
    by_cases ha : p a
    · rw [if_pos ha] at hx
      rcases List.mem_cons.mp hx with h | h
      · exact Or.inl h
      · exact Or.inr (List.mem_cons_of_mem _ h)
    · rw [if_neg ha] at hx
      rcases List.mem_cons.mp hx with h | h
      · exact Or.inr (h ▸ List.mem_cons_self _ _)
      · rcases ih h with h2 | h2
        · exact Or.inl h2
        · exact Or.inr (List.mem_cons_of_mem _ h2)

/-- ToggleCompletion on a found row: result and committed store. -/
theorem toggle_eq_of_found {store : Store} {tid : Nat} {uid : String}
    {task : Task} (now : Int) (h : findTask store tid uid = some task) :
    toggle_task_completion store tid uid now =
      (Except.ok (applyToggle task now),
       replaceFirst (ownedRow tid uid) (applyToggle task now) store) := by
  unfold toggle_task_completion
  rw [h]

/-- Update on a found row: result and committed store. -/
theorem update_eq_of_found {store : Store} {tid : Nat} {uid : String}
    {task : Task} (data : TaskUpdateData) (now : Int)
    (h : findTask store tid uid = some task) :
    update_task store tid uid data now =
      (Except.ok (applyUpdate task data now),
       replaceFirst (ownedRow tid uid) (applyUpdate task data now) store) := by
  unfold update_task
  rw [h]

/-! ### Claim C7 -/

/-- C7: for every existing task owned by the caller, Update changes exactly
the fields the request provides: omitted fields keep their prior values,
`completed`, `created_at`, `user_id` and `id` are never modified, and
`updated_at` is refreshed to the request time. -/
theorem c7_update_changes_only_provided_fields (store : Store) (tid : Nat)
    (uid : String) (data : TaskUpdateData) (now : Int) (task : Task)
    (h : findTask store tid uid = some task) :
    (update_task store tid uid data now).1 =
      Except.ok (applyUpdate task data now) ∧
    (applyUpdate task data now).completed = task.completed ∧
    (applyUpdate task data now).created_at = task.created_at ∧
    (applyUpdate task data now).user_id = task.user_id ∧
    (applyUpdate task data now).id = task.id ∧
    (applyUpdate task data now).updated_at = now ∧
    (data.title = none → (applyUpdate task data now).title = task.title) ∧
    (∀ ti, data.title = some ti → (applyUpdate task data now).title = ti) ∧
    (data.description = none →
      (applyUpdate task data now).description = task.description) ∧
    (∀ d, data.description = some d →
      (applyUpdate task data now).description = some d) := by
  refine ⟨by rw [update_eq_of_found data now h], ?_, ?_, ?_, ?_, ?_, ?_, ?_, ?_, ?_⟩ <;>
    cases hdt : data.title <;> cases hdd : data.description <;>
    simp [applyUpdate, Task.mark_updated, hdt, hdd]

/-- Witness for C7 at a concrete store: updating task 1 of "alice" with a new
title only. -/
theorem c7_update_changes_only_provided_fields_witness :
    (update_task [taskAlice] 1 "alice" ⟨some "B", none⟩ 11).1 =
      Except.ok (applyUpdate taskAlice ⟨some "B", none⟩ 11) ∧
    (applyUpdate taskAlice ⟨some "B", none⟩ 11).completed = taskAlice.completed ∧
    (applyUpdate taskAlice ⟨some "B", none⟩ 11).description = taskAlice.description :=
  have h := c7_update_changes_only_provided_fields [taskAlice] 1 "alice"
    ⟨some "B", none⟩ 11 taskAlice rfl
  ⟨h.1, h.2.1, h.2.2.2.2.2.2.2.2.1 rfl⟩

/-! ### Claim C8 -/

/-- C8: toggling a task twice returns `completed` to its original value, and
each toggle sets `updated_at` to the toggle's current time, which strictly
increases it whenever the clock has advanced past the task's last update. -/
theorem c8_toggle_twice_restores_completed (store : Store) (tid : Nat)
    (uid : String) (t1 t2 : Int) (task : Task)
    (h : findTask store tid uid = some task)
    (h1 : task.updated_at < t1) (h2 : t1 < t2) :
    (toggle_task_completion store tid uid t1).1 =
      Except.ok (applyToggle task t1) ∧
    (toggle_task_completion (toggle_task_completion store tid uid t1).2
        tid uid t2).1 =
      Except.ok (applyToggle (applyToggle task t1) t2) ∧
    (applyToggle task t1).completed = !task.completed ∧
    (applyToggle (applyToggle task t1) t2).completed = task.completed ∧
    task.updated_at < (applyToggle task t1).updated_at ∧
    (applyToggle task t1).updated_at <
      (applyToggle (applyToggle task t1) t2).updated_at := by
  have howned : ownedRow tid uid (applyToggle task t1) = true := by
    simpa [ownedRow, applyToggle, Task.mark_updated] using ownedRow_of_findTask h
  have hfind2 : findTask (toggle_task_completion store tid uid t1).2 tid uid =
      some (applyToggle task t1) := by
    rw [toggle_eq_of_found t1 h]
    exact findTask_replaceFirst_self store tid uid task _ h howned
  refine ⟨?_, ?_, ?_, ?_, ?_, ?_⟩
  · rw [toggle_eq_of_found t1 h]
  · rw [toggle_eq_of_found t2 hfind2]
  · simp [applyToggle, Task.mark_updated]
  · simp [applyToggle, Task.mark_updated]
  · simpa [applyToggle, Task.mark_updated] using h1
  · simpa [applyToggle, Task.mark_updated] using h2

/-- Witness for C8 at a concrete store: toggling "alice"'s task 1 at times 11
and 12. -/
theorem c8_toggle_twice_restores_completed_witness :
    (toggle_task_completion [taskAlice] 1 "alice" 11).1 =
      Except.ok (applyToggle taskAlice 11) ∧
    (applyToggle (applyToggle taskAlice 11) 12).completed = taskAlice.completed ∧
    taskAlice.updated_at < (applyToggle taskAlice 11).updated_at :=
  have h := c8_toggle_twice_restores_completed [taskAlice] 1 "alice" 11 12 taskAlice
    rfl (by decide) (by decide)
  ⟨h.1, h.2.2.2.1, h.2.2.2.2.1⟩

/-! ### Claim C9 -/

/-- C9: Create initialises `created_at` and `updated_at` from the two
consecutive clock reads taken at creation, and the invariant
`created_at <= updated_at` holds for every task in the store after Create,
Update and ToggleCompletion, given that the clock is monotone (the second
creation read is not before the first, and a mutation's clock read is not
before the mutated task's creation time); mutations never change
`created_at` and always set `updated_at` to the current time. -/
theorem c9_updated_at_ge_created_at_invariant (store : Store) (uid : String)
    (cdata : TaskCreateData) (newId : Nat) (now_c now_u : Int) (tid : Nat)
    (udata : TaskUpdateData) (now : Int) (task : Task)
    (hInv : storeInv store) :
    ((create_task store uid cdata newId now_c now_u).1.created_at = now_c ∧
     (create_task store uid cdata newId now_c now_u).1.updated_at = now_u) ∧
    (now_c ≤ now_u → storeInv (create_task store uid cdata newId now_c now_u).2) ∧
    (findTask store tid uid = some task → task.created_at ≤ now →
      (applyToggle task now).created_at = task.created_at ∧
      (applyUpdate task udata now).created_at = task.created_at ∧
      (applyToggle task now).updated_at = now ∧
      (applyUpdate task udata now).updated_at = now ∧
      storeInv (toggle_task_completion store tid uid now).2 ∧
      storeInv (update_task store tid uid udata now).2) := by
  refine ⟨⟨rfl, rfl⟩, ?_, ?_⟩
  · intro hcu t ht
    rcases List.mem_append.mp ht with hold | hnew
    · exact hInv t hold
    · rcases List.mem_singleton.mp hnew with rfl
      simpa using hcu
  · intro hfind hcle
    have htog : (applyToggle task now).created_at = task.created_at ∧
        (applyToggle task now).updated_at = now := by
      simp [applyToggle, Task.mark_updated]
    have hupd : (applyUpdate task udata now).created_at = task.created_at ∧
        (applyUpdate task udata now).updated_at = now := by
      cases hdt : udata.title <;> cases hdd : udata.description <;>
        simp [applyUpdate, Task.mark_updated, hdt, hdd]
    refine ⟨htog.1, hupd.1, htog.2, hupd.2, ?_, ?_⟩
    · rw [toggle_eq_of_found now hfind]
      intro t ht
      rcases mem_replaceFirst ht with rfl | hold
      · rw [htog.1, htog.2]; exact hcle
      · exact hInv t hold
    · rw [update_eq_of_found udata now hfind]
      intro t ht
      rcases mem_replaceFirst ht with rfl | hold
      · rw [hupd.1, hupd.2]; exact hcle
      · exact hInv t hold

/-- Witness for C9 at a concrete store: creating a task at times (20, 21) and
mutating "alice"'s task 1 at time 11. -/
theorem c9_updated_at_ge_created_at_invariant_witness :
    storeInv (create_task [taskAlice] "alice" ⟨"T", none⟩ 2 20 21).2 ∧
    storeInv (toggle_task_completion [taskAlice] 1 "alice" 11).2 :=
  have h := c9_updated_at_ge_created_at_invariant [taskAlice] "alice" ⟨"T", none⟩
    2 20 21 1 ⟨none, none⟩ 11 taskAlice
    (by intro t ht; simp only [List.mem_singleton] at ht; subst ht; decide)
  ⟨h.2.1 (by decide), (h.2.2 rfl (by decide)).2.2.2.2.1⟩

/-! ### Claim C10 -/

/-- C10: an Update whose description is empty or whitespace-only after
stripping is normalized to absent by the `TaskUpdate` schema and therefore
treated as an omitted field — the stored description keeps its prior value —
and for no update data at all can Update turn a present description into an
absent one: the public Update operation cannot clear a description. -/
theorem c10_update_cannot_clear_description (raw : String) (task : Task)
    (data : TaskUpdateData) (now : Int) (d : String)
    (h1 : pyStrip raw = "") (h2 : raw.length ≤ 5000) :
    validate_description (some raw) = Except.ok none ∧
    (data.description = none →
      (applyUpdate task data now).description = task.description) ∧
    (task.description = some d → (applyUpdate task data now).description ≠ none) := by
  refine ⟨?_, ?_, ?_⟩
  · have hle : ¬(raw.length > 5000) := by omega
    simp [validate_description, hle, h1]
  · intro hdd
    cases hdt : data.title <;> simp [applyUpdate, Task.mark_updated, hdt, hdd]
  · intro hd
    cases hdd : data.description <;> cases hdt : data.title <;>
      simp [applyUpdate, Task.mark_updated, hdt, hdd, hd]

/-- Witness for C10: a whitespace-only description on a task that has one. -/
theorem c10_update_cannot_clear_description_witness :
    validate_description (some "   ") = Except.ok none ∧
    (applyUpdate taskAlice ⟨none, none⟩ 11).description = taskAlice.description :=
  have h := c10_update_cannot_clear_description "   " taskAlice ⟨none, none⟩ 11 "x"
    (by decide) (by decide)
  ⟨h.1, h.2.1 rfl⟩

end TodoApp
